import Mathlib

/-!
# Verification of the SEQ live-bus pipeline (`src/api/flask_app.py`)

Shallow embedding of the fetch-decode-join-enrich-filter pipeline of the
repository `jozwang/gifs_seq_flask_vercel`.  The protobuf wire decoding
(`gtfs_realtime_pb2.FeedMessage.ParseFromString`) is an external library; it is
modelled as an abstract function `List Nat → List Entity` passed to the
orchestrator, where `Entity` captures exactly the fields the source reads.
Latitudes/longitudes are modelled as exact rationals (`Rat`); Python's float
comparisons against the decimal band literals are modelled by exact rational
comparisons.  Wall-clock timestamps and all presentation-layer formatting
(strftime, folium map rendering, HTML templating) are outside the modelled
core and carry no data, so they are omitted from the return values.  Fallible
steps are `Option`-valued: `none` models an uncaught Python exception (the
`KeyError` raised by a pandas merge against a column-less empty frame), which
Flask would surface as a 500 error, distinct from the handler's own 503 path.
-/

/-- One decoded vehicle-position payload: the fields of `entity.vehicle` that
`parse_vehicle_positions` reads (`trip.trip_id`, `trip.route_id`,
`vehicle.label`, `position.latitude/longitude`, `current_stop_sequence`,
optional `timestamp`). -/
structure VehiclePayload where
  tripId : String
  routeId : String
  vehicleLabel : String
  lat : Rat
  lon : Rat
  stopSequence : Nat
  timestamp : Option Nat
deriving Repr, DecidableEq

/-- One decoded trip-update payload: the fields of `entity.trip_update` that
`parse_trip_updates` reads (`trip.trip_id` and the `arrival.delay` of each
`stop_time_update`, in feed order). -/
structure TripUpdatePayload where
  tripId : String
  stopDelays : List Int
deriving Repr, DecidableEq

/-- One feed entity: it optionally carries a vehicle-position payload
(`entity.HasField("vehicle")`) and optionally a trip-update payload
(`entity.HasField("trip_update")`). -/
structure Entity where
  vehicle : Option VehiclePayload
  tripUpdate : Option TripUpdatePayload
deriving Repr, DecidableEq

/-- One row of the DataFrame built by `parse_vehicle_positions`
(flask_app.py lines 32-42). -/
structure VehicleRow where
  tripId : String
  routeId : String
  vehicleId : String
  lat : Rat
  lon : Rat
  stopSequence : Nat
  timestamp : Option Nat
deriving Repr, DecidableEq

/-- One row of the DataFrame built by `parse_trip_updates`
(flask_app.py lines 44-55). -/
structure UpdateRow where
  tripId : String
  delay : Int
  status : String
deriving Repr, DecidableEq

/-- One row of the merged/enriched DataFrame `live_data`
(flask_app.py lines 71-81): all vehicle columns plus `delay`, `status`,
`route_name`, `region`. -/
structure EnrichedRow where
  tripId : String
  routeId : String
  vehicleId : String
  lat : Rat
  lon : Rat
  stopSequence : Nat
  timestamp : Option Nat
  delay : Int
  status : String
  routeName : String
  region : String
deriving Repr, DecidableEq

/-- The status expression of flask_app.py line 53:
`"Delayed" if delay > 300 else ("Early" if delay < -60 else "On Time")`. -/
def trip_status (delay : Int) : String :=
  if delay > 300 then "Delayed" else if delay < -60 then "Early" else "On Time"

/-- `parse_vehicle_positions` (lines 32-42): one row per entity that has a
vehicle payload; entities without one are skipped. -/
def parse_vehicle_positions (entities : List Entity) : List VehicleRow :=
  entities.filterMap fun e =>
    e.vehicle.map fun v =>
      { tripId := v.tripId, routeId := v.routeId, vehicleId := v.vehicleLabel,
        lat := v.lat, lon := v.lon, stopSequence := v.stopSequence,
        timestamp := v.timestamp }

/-- `parse_trip_updates` (lines 44-55): one row per entity that has a
trip-update payload with a non-empty `stop_time_update` list; the delay is the
first stop-time update's arrival delay and the status is derived from it. -/
def parse_trip_updates (entities : List Entity) : List UpdateRow :=
  entities.filterMap fun e =>
    match e.tripUpdate with
    | none => none
    | some tu =>
      match tu.stopDelays with
      | [] => none
      | d :: _ => some { tripId := tu.tripId, delay := d, status := trip_status d }

/-- `route_name` derivation (line 74): `route_id.str.split('-').str[0]`, i.e.
the prefix of `route_id` before the first `-` (the whole string when there is
no `-`, and `""` for an empty or `-`-initial `route_id`, matching Python's
`split`). -/
def route_name (routeId : String) : String :=
  String.mk (routeId.toList.takeWhile (fun c => c ≠ '-'))

/-- `categorize_region` (lines 76-80), with latitude as an exact rational.
The band constants are the source's decimal literals written as explicit
rationals: `mkRat (-2775) 100 = -27.75`, `mkRat (-2778) 100 = -27.78`,
`mkRat (-282) 10 = -28.2`, `mkRat (-269) 10 = -26.9`,
`mkRat (-263) 10 = -26.3` (see `bandConstants_eq_literals`). -/
def categorize_region (lat : Rat) : String :=
  if mkRat (-2775) 100 ≤ lat ∧ lat ≤ -27 then "Brisbane"
  else if mkRat (-282) 10 ≤ lat ∧ lat ≤ mkRat (-2778) 100 then "Gold Coast"
  else if mkRat (-269) 10 ≤ lat ∧ lat ≤ mkRat (-263) 10 then "Sunshine Coast"
  else "Other"

/-- The rational band constants of `categorize_region` are exactly the decimal
literals written in flask_app.py lines 77-79. -/
theorem bandConstants_eq_literals :
    mkRat (-2775) 100 = (-27.75 : Rat) ∧ mkRat (-2778) 100 = (-27.78 : Rat) ∧
    mkRat (-282) 10 = (-28.2 : Rat) ∧ mkRat (-269) 10 = (-26.9 : Rat) ∧
    mkRat (-263) 10 = (-26.3 : Rat) ∧ ((-27 : Rat) = -27.0) := by
  norm_num [Rat.mkRat_eq_divInt, Rat.divInt_eq_div]

/-- Builds one enriched row from a vehicle row and a (delay, status) pair,
with the derived columns of lines 74 and 81. -/
def enriched_of (v : VehicleRow) (delay : Int) (status : String) : EnrichedRow :=
  { tripId := v.tripId, routeId := v.routeId, vehicleId := v.vehicleId,
    lat := v.lat, lon := v.lon, stopSequence := v.stopSequence,
    timestamp := v.timestamp, delay := delay, status := status,
    routeName := route_name v.routeId, region := categorize_region v.lat }

/-- The rows a single vehicle contributes to
`vehicles_df.merge(updates_df, on="trip_id", how="left")` after the `fillna`
calls (lines 71-73): one row per matching update, in update order, or a single
default row (`delay = 0`, `status = "On Time"`) when no update matches. -/
def merge_rows (v : VehicleRow) (updates : List UpdateRow) : List EnrichedRow :=
  match updates.filter (fun u => u.tripId == v.tripId) with
  | [] => [enriched_of v 0 "On Time"]
  | ms => ms.map fun u => enriched_of v u.delay u.status

/-- The rows of the pandas left merge on `trip_id` (lines 71-81) in the case
where the merge is defined: one block of rows per vehicle, in vehicle order,
defaults filled for unmatched vehicles, with the derived `route_name` and
`region` columns. -/
def left_merge : List VehicleRow → List UpdateRow → List EnrichedRow
  | [], _ => []
  | v :: vs, updates => merge_rows v updates ++ left_merge vs updates

/-- The enrichment step of `get_live_bus_data` (lines 71-81).
`pd.DataFrame(lst)` built from an empty list has no columns at all, so
`vehicles_df.merge(updates_df, on="trip_id", how="left")` raises
`KeyError: 'trip_id'` exactly when either record list is empty; `none` models
that uncaught exception.  Otherwise the merge and the derived columns yield
`left_merge`'s rows. -/
def enrich (vehicles : List VehicleRow) (updates : List UpdateRow) :
    Option (List EnrichedRow) :=
  if vehicles.isEmpty || updates.isEmpty then none
  else some (left_merge vehicles updates)

/-- Truthiness of a fetch result (`bytes | None`): Python's
`not vehicle_content` is true both for `None` and for the empty byte string. -/
def truthy (content : Option (List Nat)) : Bool :=
  match content with
  | none => false
  | some bs => !bs.isEmpty

/-- `get_live_bus_data` (lines 57-83), parameterized by the external protobuf
decoder and by the two fetch results (`fetch_gtfs_rt` returns the body bytes
on success and `None` on any request error).  `some rows` is a normal return
of the `live_data` DataFrame rows (the wall-clock timestamp returned
alongside carries no pipeline data and is omitted); both failure paths
(line 63 and line 69) return the empty frame `some []`.  `none` models the
uncaught `KeyError` that the merge raises when vehicles were decoded but the
trip feed decoded to zero update records (the empty-vehicles case is caught
by the line 68 guard before the merge). -/
def get_live_bus_data (decodeFeed : List Nat → List Entity)
    (vehicle_content trip_content : Option (List Nat)) : Option (List EnrichedRow) :=
  if !truthy vehicle_content || !truthy trip_content then some []
  else
    let vehicles := parse_vehicle_positions (decodeFeed (vehicle_content.getD []))
    let updates := parse_trip_updates (decodeFeed (trip_content.getD []))
    if vehicles.isEmpty then some [] else enrich vehicles updates

/-- Computable lexicographic comparison of character lists, modelling
Python's string comparison (code-point lexicographic order). -/
def lexLe : List Char → List Char → Bool
  | [], _ => true
  | _ :: _, [] => false
  | a :: as, b :: bs => if a < b then true else if b < a then false else lexLe as bs

/-- `lexLe` decides the negation of the strict lexicographic order in the
reverse direction. -/
theorem lexLe_iff_not_lex :
    ∀ l₁ l₂ : List Char, lexLe l₁ l₂ = true ↔ ¬ List.Lex (· < ·) l₂ l₁ := by
  intro l₁
  induction l₁ with
  | nil =>
    intro l₂
    simp [lexLe, List.Lex.not_nil_right]
  | cons a as ih =>
    intro l₂
    cases l₂ with
    | nil =>
      simp [lexLe]
      exact List.Lex.nil
    | cons b bs =>
      rcases lt_trichotomy a b with hab | hab | hab
      · simp only [lexLe, if_pos hab, true_iff]
        intro hlex
        cases hlex with
        | cons h => exact absurd hab (lt_irrefl _)
        | rel h => exact absurd (hab.trans h) (lt_irrefl _)
      · subst hab
        simp only [lexLe, if_neg (lt_irrefl a), List.Lex.cons_iff]
        exact ih bs
      · simp only [lexLe, if_neg (not_lt_of_gt hab), if_pos hab, Bool.false_eq_true,
          false_iff, not_not]
        exact List.Lex.rel hab

/-- `lexLe` decides Mathlib's linear order on `List Char`. -/
theorem lexLe_iff_le (l₁ l₂ : List Char) : lexLe l₁ l₂ = true ↔ l₁ ≤ l₂ := by
  rw [lexLe_iff_not_lex]
  exact @not_lt (List Char) _ l₂ l₁

/-- A kernel-computable decision procedure for `≤` on `String`
(the library's `String.decidableLE` works on byte iterators and does not
reduce inside the kernel). -/
def decStrLe : DecidableRel (fun a b : String => a ≤ b) := fun a b =>
  decidable_of_iff (lexLe a.toList b.toList = true)
    ((lexLe_iff_le a.toList b.toList).trans String.le_iff_toList_le.symm)

/-- `sorted(df[col].unique().tolist())`: the distinct values of a column,
lexicographically sorted. -/
def uniqueSorted (l : List String) : List String :=
  @List.insertionSort String (fun a b => a ≤ b) decStrLe l.dedup

/-- The four user selections read from the query string (lines 94-97):
`region`, `route` and `vehicle` are single values ("All" acts as the unset
sentinel), `status` is a list of values (empty when not provided). -/
structure Selection where
  region : String
  route : String
  status : List String
  vehicle : String
deriving Repr, DecidableEq

/-- Line 105: `master_df[master_df["region"] == selected_region] if
selected_region != "All" else master_df`. -/
def narrow_by_region (master : List EnrichedRow) (selRegion : String) : List EnrichedRow :=
  if selRegion ≠ "All" then master.filter (fun r => r.region == selRegion) else master

/-- Line 109: narrow the region-stage frame by the selected route. -/
def narrow_by_route (d : List EnrichedRow) (selRoute : String) : List EnrichedRow :=
  if selRoute ≠ "All" then d.filter (fun r => r.routeName == selRoute) else d

/-- Line 110: `sorted(df_for_status["status"].unique().tolist())` — no "All"
sentinel is prepended to the status options. -/
def status_options_of (d : List EnrichedRow) : List String :=
  uniqueSorted (d.map (·.status))

/-- Lines 113-114: an empty status selection defaults to the full status
option list of the current route-stage frame. -/
def effective_status_of (d : List EnrichedRow) (selStatus : List String) : List String :=
  if selStatus.isEmpty then status_options_of d else selStatus

/-- Line 117: `df_for_status[df_for_status["status"].isin(selected_status)]`
with the (possibly defaulted) status selection. -/
def narrow_by_status (d : List EnrichedRow) (selStatus : List String) : List EnrichedRow :=
  d.filter fun r => (effective_status_of d selStatus).contains r.status

/-- Lines 122-124: the final frame, narrowed by the selected vehicle. -/
def narrow_by_vehicle (d : List EnrichedRow) (selVehicle : String) : List EnrichedRow :=
  if selVehicle ≠ "All" then d.filter (fun r => r.vehicleId == selVehicle) else d

/-- The cascade outputs of the handler (lines 99-124): the four option lists,
the effective (possibly defaulted) status selection, and the final filtered
frame. -/
structure CascadeResult where
  regionOptions : List String
  routeOptions : List String
  statusOptions : List String
  vehicleOptions : List String
  effectiveStatus : List String
  filtered : List EnrichedRow
deriving Repr, DecidableEq

/-- The cascading filter logic of `index` (lines 99-124) as one function of
the enriched set and the selection. -/
def resolve (master : List EnrichedRow) (sel : Selection) : CascadeResult :=
  let df_for_routes := narrow_by_region master sel.region
  let df_for_status := narrow_by_route df_for_routes sel.route
  let df_for_vehicles := narrow_by_status df_for_status sel.status
  { regionOptions := "All" :: uniqueSorted (master.map (·.region)),
    routeOptions := "All" :: uniqueSorted (df_for_routes.map (·.routeName)),
    statusOptions := status_options_of df_for_status,
    vehicleOptions := "All" :: uniqueSorted (df_for_vehicles.map (·.vehicleId)),
    effectiveStatus := effective_status_of df_for_status sel.status,
    filtered := narrow_by_vehicle df_for_vehicles sel.vehicle }

/-- The `index` handler's dispatch (lines 88-91): an empty `master_df` —
whether from a fetch failure, an untruthy body, or an empty decoded vehicle
feed — yields the 503 service-unavailable response, modelled as `none`;
otherwise the cascade result is rendered. -/
def index_result (master : List EnrichedRow) (sel : Selection) : Option CascadeResult :=
  if master.isEmpty then none else some (resolve master sel)

/-! ## Helper lemmas -/

theorem mem_uniqueSorted {a : String} {l : List String} : a ∈ uniqueSorted l ↔ a ∈ l := by
  unfold uniqueSorted
  rw [(@List.perm_insertionSort String (fun a b => a ≤ b) decStrLe l.dedup).mem_iff]
  exact List.mem_dedup

theorem sorted_uniqueSorted (l : List String) :
    List.Sorted (fun a b : String => a ≤ b) (uniqueSorted l) :=
  @List.sorted_insertionSort String (fun a b => a ≤ b) decStrLe _ _ l.dedup

theorem nodup_uniqueSorted (l : List String) : (uniqueSorted l).Nodup :=
  ((@List.perm_insertionSort String (fun a b => a ≤ b) decStrLe l.dedup).nodup_iff).mpr
    (List.nodup_dedup l)

theorem length_uniqueSorted (l : List String) : (uniqueSorted l).length = l.dedup.length :=
  (@List.perm_insertionSort String (fun a b => a ≤ b) decStrLe l.dedup).length_eq

theorem uniqueSorted_length_mono {l₁ l₂ : List String} (h : l₁ ⊆ l₂) :
    (uniqueSorted l₁).length ≤ (uniqueSorted l₂).length := by
  rw [length_uniqueSorted, length_uniqueSorted]
  refine List.Subperm.length_le ?_
  refine List.subperm_of_subset (List.nodup_dedup l₁) ?_
  intro x hx
  exact List.mem_dedup.mpr (h (List.mem_dedup.mp hx))

theorem filter_subset_self {α : Type} (p : α → Bool) (l : List α) : l.filter p ⊆ l :=
  fun _ hx => (List.mem_filter.mp hx).1

theorem filter_subset_filter {α : Type} (p : α → Bool) {l₁ l₂ : List α} (h : l₁ ⊆ l₂) :
    l₁.filter p ⊆ l₂.filter p := by
  intro x hx
  rcases List.mem_filter.mp hx with ⟨hm, hp⟩
  exact List.mem_filter.mpr ⟨h hm, hp⟩

theorem narrow_by_region_all (master : List EnrichedRow) :
    narrow_by_region master "All" = master := by
  simp [narrow_by_region]

theorem narrow_by_route_all (d : List EnrichedRow) : narrow_by_route d "All" = d := by
  simp [narrow_by_route]

theorem narrow_by_region_subset (master : List EnrichedRow) (g : String) :
    narrow_by_region master g ⊆ master := by
  unfold narrow_by_region
  split
  · exact filter_subset_self _ master
  · exact fun x hx => hx

theorem narrow_by_route_subset (d : List EnrichedRow) (rt : String) :
    narrow_by_route d rt ⊆ d := by
  unfold narrow_by_route
  split
  · exact filter_subset_self _ d
  · exact fun x hx => hx

theorem narrow_by_status_subset (d : List EnrichedRow) (ss : List String) :
    narrow_by_status d ss ⊆ d :=
  filter_subset_self _ d

theorem narrow_by_route_mono {d₁ d₂ : List EnrichedRow} (rt : String) (h : d₁ ⊆ d₂) :
    narrow_by_route d₁ rt ⊆ narrow_by_route d₂ rt := by
  unfold narrow_by_route
  split
  · exact filter_subset_filter _ h
  · exact h

theorem narrow_by_status_nil (d : List EnrichedRow) : narrow_by_status d [] = d := by
  unfold narrow_by_status
  rw [List.filter_eq_self]
  intro r hr
  have hmem : r.status ∈ effective_status_of d [] := by
    unfold effective_status_of status_options_of
    simp only [List.isEmpty_nil, if_pos]
    exact mem_uniqueSorted.mpr (List.mem_map.mpr ⟨r, hr, rfl⟩)
  exact List.elem_eq_true_of_mem hmem

theorem narrow_by_status_mono {d₁ d₂ : List EnrichedRow} (ss : List String) (h : d₁ ⊆ d₂) :
    narrow_by_status d₁ ss ⊆ narrow_by_status d₂ ss := by
  cases ss with
  | nil =>
    rw [narrow_by_status_nil, narrow_by_status_nil]
    exact h
  | cons a l =>
    unfold narrow_by_status effective_status_of
    simp only [List.isEmpty_cons, if_neg Bool.false_ne_true]
    exact filter_subset_filter _ h

theorem trip_status_spec (d : Int) :
    (trip_status d = "Delayed" ↔ d > 300) ∧ (trip_status d = "Early" ↔ d < -60) ∧
    (trip_status d = "On Time" ↔ (-60 ≤ d ∧ d ≤ 300)) := by
  unfold trip_status
  split_ifs with h1 h2
  · refine ⟨⟨fun _ => h1, fun _ => rfl⟩, ⟨fun h => absurd h (by decide), fun h => by omega⟩,
      ⟨fun h => absurd h (by decide), fun h => by omega⟩⟩
  · refine ⟨⟨fun h => absurd h (by decide), fun h => by omega⟩, ⟨fun _ => h2, fun _ => rfl⟩,
      ⟨fun h => absurd h (by decide), fun h => by omega⟩⟩
  · refine ⟨⟨fun h => absurd h (by decide), fun h => by omega⟩,
      ⟨fun h => absurd h (by decide), fun h => by omega⟩, ⟨fun _ => by omega, fun _ => rfl⟩⟩

theorem status_eq_of_mem_parse {u : UpdateRow} {es : List Entity}
    (h : u ∈ parse_trip_updates es) : u.status = trip_status u.delay := by
  rcases List.mem_filterMap.mp h with ⟨e, -, hf⟩
  rcases e with ⟨ev, etu⟩
  cases etu with
  | none => simp at hf
  | some tu =>
    cases hds : tu.stopDelays with
    | nil => simp [hds] at hf
    | cons d rest =>
      simp only [hds] at hf
      rcases Option.some.inj hf with h₂
      rw [← h₂]

theorem mem_left_merge {r : EnrichedRow} :
    ∀ {vs : List VehicleRow} {us : List UpdateRow}, r ∈ left_merge vs us →
      ∃ v ∈ vs, r = enriched_of v 0 "On Time" ∨
        ∃ u ∈ us, u.tripId = v.tripId ∧ r = enriched_of v u.delay u.status := by
  intro vs
  induction vs with
  | nil => intro us h; simp [left_merge] at h
  | cons v vs ih =>
    intro us h
    rcases List.mem_append.mp h with hm | hm
    · refine ⟨v, List.mem_cons_self v vs, ?_⟩
      unfold merge_rows at hm
      split at hm
      · rcases List.mem_singleton.mp hm with rfl
        exact Or.inl rfl
      · rcases List.mem_map.mp hm with ⟨u, hu, rfl⟩
        have hu' := List.mem_filter.mp hu
        exact Or.inr ⟨u, hu'.1, eq_of_beq hu'.2, rfl⟩
    · rcases ih hm with ⟨v', hv', hcase⟩
      exact ⟨v', List.mem_cons_of_mem v hv', hcase⟩

theorem filter_tripId_length_le_one (us : List UpdateRow)
    (hnd : (us.map (fun u => u.tripId)).Nodup) (t : String) :
    (us.filter (fun u => u.tripId == t)).length ≤ 1 := by
  induction us with
  | nil => simp
  | cons u us ih =>
    rw [List.map_cons, List.nodup_cons] at hnd
    rw [List.filter_cons]
    split
    · rename_i hb
      have ht : u.tripId = t := eq_of_beq hb
      have hnil : us.filter (fun u' => u'.tripId == t) = [] := by
        rw [List.filter_eq_nil_iff]
        intro u' hu' hb'
        exact hnd.1 (List.mem_map.mpr ⟨u', hu', (eq_of_beq hb').trans ht.symm⟩)
      rw [hnil]
      simp
    · exact ih hnd.2

theorem merge_rows_length_one {v : VehicleRow} {us : List UpdateRow}
    (hnd : (us.map (fun u => u.tripId)).Nodup) : (merge_rows v us).length = 1 := by
  have hle := filter_tripId_length_le_one us hnd v.tripId
  unfold merge_rows
  cases hf : us.filter (fun u => u.tripId == v.tripId) with
  | nil => rfl
  | cons m rest =>
    rw [hf] at hle
    simp only [List.length_map, List.length_cons] at hle ⊢
    omega

theorem left_merge_length {vs : List VehicleRow} {us : List UpdateRow}
    (hnd : (us.map (fun u => u.tripId)).Nodup) :
    (left_merge vs us).length = vs.length := by
  induction vs with
  | nil => rfl
  | cons v vs ih =>
    show (merge_rows v us ++ left_merge vs us).length = vs.length + 1
    rw [List.length_append, merge_rows_length_one hnd, ih]
    omega

theorem left_merge_unmatched_default {vs : List VehicleRow} {us : List UpdateRow}
    {v : VehicleRow} (hv : v ∈ vs) (hno : ∀ u ∈ us, u.tripId ≠ v.tripId) :
    enriched_of v 0 "On Time" ∈ left_merge vs us := by
  induction vs with
  | nil => simp at hv
  | cons v' vs ih =>
    rcases List.mem_cons.mp hv with rfl | hv'
    · refine List.mem_append.mpr (Or.inl ?_)
      unfold merge_rows
      have hnil : us.filter (fun u => u.tripId == v.tripId) = [] := by
        rw [List.filter_eq_nil_iff]
        intro u hu hb
        exact hno u hu (eq_of_beq hb)
      rw [hnil]
      exact List.mem_singleton.mpr rfl
    · exact List.mem_append.mpr (Or.inr (ih hv'))

theorem enrich_eq_some {vehicles : List VehicleRow} {updates : List UpdateRow}
    (hv : vehicles ≠ []) (hu : updates ≠ []) :
    enrich vehicles updates = some (left_merge vehicles updates) := by
  have h1 : vehicles.isEmpty = false := by
    cases vehicles with
    | nil => exact absurd rfl hv
    | cons a l => rfl
  have h2 : updates.isEmpty = false := by
    cases updates with
    | nil => exact absurd rfl hu
    | cons a l => rfl
  unfold enrich
  rw [h1, h2]
  rfl

theorem enrich_some_inv {vehicles : List VehicleRow} {updates : List UpdateRow}
    {rows : List EnrichedRow} (h : enrich vehicles updates = some rows) :
    rows = left_merge vehicles updates := by
  unfold enrich at h
  split at h
  · exact absurd h (by simp)
  · exact (Option.some.inj h).symm

/-! ## Claim theorems -/

/-- C3: for every enriched record produced by the pipeline (vehicles and
updates decoded by `parse_vehicle_positions` / `parse_trip_updates`, then
joined by a succeeding `enrich`), `status` is the deterministic function of
`delay` given
by the fixed thresholds: `delay > 300 → "Delayed"`, `delay < -60 → "Early"`,
otherwise `"On Time"`; in particular the boundary values 300 and -60 map to
`"On Time"`, 301 to `"Delayed"` and -61 to `"Early"`. -/
theorem C3_status_thresholds (entsV entsT : List Entity) (rows : List EnrichedRow)
    (r : EnrichedRow)
    (hrows : enrich (parse_vehicle_positions entsV) (parse_trip_updates entsT) = some rows)
    (h : r ∈ rows) :
    r.status = trip_status r.delay ∧
    (r.status = "Delayed" ↔ r.delay > 300) ∧
    (r.status = "Early" ↔ r.delay < -60) ∧
    (r.status = "On Time" ↔ (-60 ≤ r.delay ∧ r.delay ≤ 300)) ∧
    trip_status 300 = "On Time" ∧ trip_status (-60) = "On Time" ∧
    trip_status 301 = "Delayed" ∧ trip_status (-61) = "Early" := by
  rw [enrich_some_inv hrows] at h
  have hst : r.status = trip_status r.delay := by
    rcases mem_left_merge h with ⟨v, -, hdef | ⟨u, hu, -, hmatch⟩⟩
    · rw [hdef]; rfl
    · rw [hmatch]
      exact status_eq_of_mem_parse hu
  rcases trip_status_spec r.delay with ⟨h1, h2, h3⟩
  rw [hst]
  exact ⟨rfl, h1, h2, h3, rfl, rfl, rfl, rfl⟩

/-- Witness for `C3_status_thresholds` at a concrete feed: one vehicle on trip
"A" and one trip update for "A" with first-stop delay 400. -/
theorem C3_status_thresholds_witness :
    (enrich (parse_vehicle_positions [⟨some ⟨"A", "700-city", "V1", -27, 153, 1, none⟩, none⟩])
        (parse_trip_updates [⟨none, some ⟨"A", [400, 5]⟩⟩]) =
      some (left_merge
        (parse_vehicle_positions [⟨some ⟨"A", "700-city", "V1", -27, 153, 1, none⟩, none⟩])
        (parse_trip_updates [⟨none, some ⟨"A", [400, 5]⟩⟩]))) ∧
    (enriched_of ⟨"A", "700-city", "V1", -27, 153, 1, none⟩ 400 "Delayed" ∈
      left_merge
        (parse_vehicle_positions [⟨some ⟨"A", "700-city", "V1", -27, 153, 1, none⟩, none⟩])
        (parse_trip_updates [⟨none, some ⟨"A", [400, 5]⟩⟩])) ∧
    ((enriched_of ⟨"A", "700-city", "V1", -27, 153, 1, none⟩ 400 "Delayed").status =
        trip_status (enriched_of ⟨"A", "700-city", "V1", -27, 153, 1, none⟩ 400 "Delayed").delay ∧
      ((enriched_of ⟨"A", "700-city", "V1", -27, 153, 1, none⟩ 400 "Delayed").status = "Delayed" ↔
        (enriched_of ⟨"A", "700-city", "V1", -27, 153, 1, none⟩ 400 "Delayed").delay > 300) ∧
      ((enriched_of ⟨"A", "700-city", "V1", -27, 153, 1, none⟩ 400 "Delayed").status = "Early" ↔
        (enriched_of ⟨"A", "700-city", "V1", -27, 153, 1, none⟩ 400 "Delayed").delay < -60) ∧
      ((enriched_of ⟨"A", "700-city", "V1", -27, 153, 1, none⟩ 400 "Delayed").status = "On Time" ↔
        (-60 ≤ (enriched_of ⟨"A", "700-city", "V1", -27, 153, 1, none⟩ 400 "Delayed").delay ∧
          (enriched_of ⟨"A", "700-city", "V1", -27, 153, 1, none⟩ 400 "Delayed").delay ≤ 300)) ∧
      trip_status 300 = "On Time" ∧ trip_status (-60) = "On Time" ∧
      trip_status 301 = "Delayed" ∧ trip_status (-61) = "Early") :=
  ⟨by decide, by decide,
    C3_status_thresholds [⟨some ⟨"A", "700-city", "V1", -27, 153, 1, none⟩, none⟩]
      [⟨none, some ⟨"A", [400, 5]⟩⟩]
      (left_merge
        (parse_vehicle_positions [⟨some ⟨"A", "700-city", "V1", -27, 153, 1, none⟩, none⟩])
        (parse_trip_updates [⟨none, some ⟨"A", [400, 5]⟩⟩]))
      (enriched_of ⟨"A", "700-city", "V1", -27, 153, 1, none⟩ 400 "Delayed")
      (by decide) (by decide)⟩

/-- C4: for every enriched record, `region` is the deterministic function of
`latitude` given by the four fixed inclusive bands ([-27.75, -27] Brisbane,
[-28.2, -27.78] Gold Coast, [-26.9, -26.3] Sunshine Coast, otherwise
"Other"); band edges belong to their band and the gap point -27.76 falls
through to "Other".  The rational constants are the source's decimal
literals (`bandConstants_eq_literals`). -/
theorem C4_region_bands :
    (∀ (vs : List VehicleRow) (us : List UpdateRow) (rows : List EnrichedRow) (r : EnrichedRow),
      enrich vs us = some rows → r ∈ rows → r.region = categorize_region r.lat) ∧
    (∀ lat : Rat,
      ((mkRat (-2775) 100 ≤ lat ∧ lat ≤ -27) → categorize_region lat = "Brisbane") ∧
      ((mkRat (-282) 10 ≤ lat ∧ lat ≤ mkRat (-2778) 100) → categorize_region lat = "Gold Coast") ∧
      ((mkRat (-269) 10 ≤ lat ∧ lat ≤ mkRat (-263) 10) → categorize_region lat = "Sunshine Coast") ∧
      (¬(mkRat (-2775) 100 ≤ lat ∧ lat ≤ -27) → ¬(mkRat (-282) 10 ≤ lat ∧ lat ≤ mkRat (-2778) 100) →
        ¬(mkRat (-269) 10 ≤ lat ∧ lat ≤ mkRat (-263) 10) → categorize_region lat = "Other")) ∧
    categorize_region (mkRat (-2776) 100) = "Other" ∧
    categorize_region (-27) = "Brisbane" ∧
    categorize_region (mkRat (-2775) 100) = "Brisbane" ∧
    categorize_region (mkRat (-2778) 100) = "Gold Coast" ∧
    categorize_region (mkRat (-282) 10) = "Gold Coast" ∧
    categorize_region (mkRat (-269) 10) = "Sunshine Coast" ∧
    categorize_region (mkRat (-263) 10) = "Sunshine Coast" := by
  refine ⟨?_, ?_, by decide, by decide, by decide, by decide, by decide, by decide, by decide⟩
  · intro vs us rows r hrows h
    rw [enrich_some_inv hrows] at h
    rcases mem_left_merge h with ⟨v, -, hdef | ⟨u, -, -, hmatch⟩⟩
    · rw [hdef]; rfl
    · rw [hmatch]; rfl
  · intro lat
    refine ⟨fun h => ?_, fun h => ?_, fun h => ?_, fun h1 h2 h3 => ?_⟩
    · unfold categorize_region
      rw [if_pos h]
    · unfold categorize_region
      rw [if_neg ?_, if_pos h]
      rintro ⟨ha, -⟩
      exact absurd (le_trans ha h.2) (by decide)
    · unfold categorize_region
      rw [if_neg ?_, if_neg ?_, if_pos h]
      · rintro ⟨-, hb⟩
        exact absurd (le_trans h.1 hb) (by decide)
      · rintro ⟨-, hb⟩
        exact absurd (le_trans h.1 hb) (by decide)
    · unfold categorize_region
      rw [if_neg h1, if_neg h2, if_neg h3]

/-- Witness for `C4_region_bands`: an enriched record at latitude -28 (an
integer inside the Gold Coast band) produced by a successful merge, plus the
band facts instantiated inside the Gold Coast band. -/
theorem C4_region_bands_witness :
    ((enriched_of ⟨"A", "700", "V1", -28, 153, 1, none⟩ 400 "Delayed").region =
      categorize_region (enriched_of ⟨"A", "700", "V1", -28, 153, 1, none⟩ 400 "Delayed").lat) ∧
    ((mkRat (-282) 10 ≤ mkRat (-28) 1 ∧ mkRat (-28) 1 ≤ mkRat (-2778) 100) ∧
      categorize_region (mkRat (-28) 1) = "Gold Coast") :=
  ⟨C4_region_bands.1 [⟨"A", "700", "V1", -28, 153, 1, none⟩] [⟨"A", 400, "Delayed"⟩]
      (left_merge [⟨"A", "700", "V1", -28, 153, 1, none⟩] [⟨"A", 400, "Delayed"⟩])
      (enriched_of ⟨"A", "700", "V1", -28, 153, 1, none⟩ 400 "Delayed")
      (by decide) (by decide),
    by decide, (C4_region_bands.2.1 (mkRat (-28) 1)).2.1 (by decide)⟩

/-- C9: if either feed's fetch fails (`fetch_gtfs_rt` returns `None`) while
the other succeeds with any body, `get_live_bus_data` aborts the whole cycle
at line 62 with the empty failure frame (`some []` — no enrichment from the
surviving feed is ever computed), and `index` surfaces that empty frame as
the 503 service-unavailable response (`none`), the code's pipeline-failure
surface.  This holds for every decoder, so no partial result can be derived
from the one fetched feed. -/
theorem C9_fetch_failure_aborts (decodeFeed : List Nat → List Entity)
    (other : List Nat) (sel : Selection) :
    get_live_bus_data decodeFeed none (some other) = some [] ∧
    get_live_bus_data decodeFeed (some other) none = some [] ∧
    index_result [] sel = none := by
  have h1 : get_live_bus_data decodeFeed none (some other) = some [] := by
    simp [get_live_bus_data, truthy]
  have h2 : get_live_bus_data decodeFeed (some other) none = some [] := by
    simp [get_live_bus_data, truthy]
  exact ⟨h1, h2, rfl⟩

/-- C10: a fetch that succeeds with a zero-length byte body (a valid wire
encoding of an empty feed) is treated exactly like a failed fetch: Python's
`if not vehicle_content` tests truthiness, not `None`-ness, so `truthy` of
`some []` equals `truthy` of `none`, and the cycle short-circuits to the same
empty result (`some []`, surfaced by `index` as the 503) for every decoder —
the body is never decoded. -/
theorem C10_empty_body_is_failure (decodeFeed : List Nat → List Entity)
    (other : Option (List Nat)) (sel : Selection) :
    truthy (some []) = truthy none ∧
    get_live_bus_data decodeFeed (some []) other = get_live_bus_data decodeFeed none other ∧
    get_live_bus_data decodeFeed other (some []) = get_live_bus_data decodeFeed other none ∧
    get_live_bus_data decodeFeed (some []) other = some [] ∧
    index_result [] sel = none := by
  have h1 : get_live_bus_data decodeFeed (some []) other = some [] := by
    simp [get_live_bus_data, truthy]
  have h2 : get_live_bus_data decodeFeed none other = some [] := by
    simp [get_live_bus_data, truthy]
  have h3 : get_live_bus_data decodeFeed other (some []) = some [] := by
    simp [get_live_bus_data, truthy]
  have h4 : get_live_bus_data decodeFeed other none = some [] := by
    simp [get_live_bus_data, truthy]
  exact ⟨rfl, by rw [h1, h2], by rw [h3, h4], h1, rfl⟩

/-- C1 counterexample: the claim "enrichment produces exactly one enriched
record per input vehicle for every trip-update sequence, including an empty
one, and a vehicle with an empty tripId receives delay 0 and status On Time"
is false twice over.  (i) With one vehicle and an *empty* update sequence the
merge is undefined: `pd.DataFrame([])` has no `trip_id` column, so the source
raises `KeyError` (`enrich ... [] = none`) instead of producing one record
per vehicle.  (ii) With two update rows keyed by the empty tripId (as
`parse_trip_updates` produces for two trip-update entities with no trip id),
the left merge emits two rows for the single empty-tripId vehicle, the first
carrying delay 400 / "Delayed" rather than the defaults. -/
theorem C1_counterexample :
    enrich [⟨"", "700-city", "V1", mkRat (-55) 2, 153, 3, none⟩] [] = none ∧
    (enrich [⟨"", "700-city", "V1", mkRat (-55) 2, 153, 3, none⟩]
        [⟨"", 400, "Delayed"⟩, ⟨"", 0, "On Time"⟩]).map (fun rows => rows.length) = some 2 ∧
    ([⟨"", "700-city", "V1", mkRat (-55) 2, 153, 3, none⟩] : List VehicleRow).length = 1 ∧
    ∃ r ∈ (enrich [⟨"", "700-city", "V1", mkRat (-55) 2, 153, 3, none⟩]
        [⟨"", 400, "Delayed"⟩, ⟨"", 0, "On Time"⟩]).getD [],
      r.tripId = "" ∧ r.delay = 400 ∧ r.status = "Delayed" := by
  decide

/-- C1 (amended): when both record lists are non-empty — an empty list yields
a column-less frame and the source's merge raises `KeyError` — and the update
rows have pairwise-distinct tripIds (the spec's "at most one TripUpdateRecord
per trip" data-model invariant), the left join succeeds and is total: it
produces exactly one enriched record per input vehicle.  Moreover, whenever
the merge succeeds, a vehicle whose tripId matches no update's tripId (in
particular an empty tripId when no update carries an empty tripId) is never
dropped: the result contains its record with `delay = 0` and
`status = "On Time"`. -/
theorem C1_left_join_total (vehicles : List VehicleRow) (updates : List UpdateRow)
    (hv : vehicles ≠ []) (hu : updates ≠ []) :
    ((updates.map (fun u => u.tripId)).Nodup →
      ∃ rows, enrich vehicles updates = some rows ∧ rows.length = vehicles.length) ∧
    (∀ v ∈ vehicles, (∀ u ∈ updates, u.tripId ≠ v.tripId) →
      ∃ rows, enrich vehicles updates = some rows ∧
        ∃ r ∈ rows, r.tripId = v.tripId ∧ r.vehicleId = v.vehicleId ∧ r.lat = v.lat ∧
          r.delay = 0 ∧ r.status = "On Time") := by
  constructor
  · exact fun hnd => ⟨left_merge vehicles updates, enrich_eq_some hv hu, left_merge_length hnd⟩
  · intro v hvm hno
    exact ⟨left_merge vehicles updates, enrich_eq_some hv hu,
      enriched_of v 0 "On Time", left_merge_unmatched_default hvm hno,
      rfl, rfl, rfl, rfl, rfl⟩

/-- Witness for `C1_left_join_total`: two vehicles (one matched on trip "A",
one with an empty tripId) and a single update for "A"; every hypothesis is
discharged at these concrete inputs. -/
theorem C1_left_join_total_witness :
    (∃ rows, enrich [⟨"A", "700-city", "V1", mkRat (-55) 2, 153, 3, none⟩,
        ⟨"", "750-coast", "V2", -28, 153, 5, none⟩] [⟨"A", 400, "Delayed"⟩] = some rows ∧
      rows.length = ([⟨"A", "700-city", "V1", mkRat (-55) 2, 153, 3, none⟩,
        ⟨"", "750-coast", "V2", -28, 153, 5, none⟩] : List VehicleRow).length) ∧
    (∃ rows, enrich [⟨"A", "700-city", "V1", mkRat (-55) 2, 153, 3, none⟩,
        ⟨"", "750-coast", "V2", -28, 153, 5, none⟩] [⟨"A", 400, "Delayed"⟩] = some rows ∧
      ∃ r ∈ rows,
        r.tripId = (⟨"", "750-coast", "V2", -28, 153, 5, none⟩ : VehicleRow).tripId ∧
        r.vehicleId = (⟨"", "750-coast", "V2", -28, 153, 5, none⟩ : VehicleRow).vehicleId ∧
        r.lat = (⟨"", "750-coast", "V2", -28, 153, 5, none⟩ : VehicleRow).lat ∧
        r.delay = 0 ∧ r.status = "On Time") :=
  ⟨(C1_left_join_total [⟨"A", "700-city", "V1", mkRat (-55) 2, 153, 3, none⟩,
      ⟨"", "750-coast", "V2", -28, 153, 5, none⟩] [⟨"A", 400, "Delayed"⟩]
      (by decide) (by decide)).1 (by decide),
    (C1_left_join_total [⟨"A", "700-city", "V1", mkRat (-55) 2, 153, 3, none⟩,
      ⟨"", "750-coast", "V2", -28, 153, 5, none⟩] [⟨"A", 400, "Delayed"⟩]
      (by decide) (by decide)).2
      ⟨"", "750-coast", "V2", -28, 153, 5, none⟩ (by decide) (by decide)⟩

/-- C2 counterexample: the claim that an empty-but-successfully-decoded
vehicle feed is distinguishable by callers from a pipeline failure is false.
With non-empty bytes `[1]` that decode to zero entities (a successfully
decoded empty feed), `get_live_bus_data` returns exactly the same empty frame
as when both fetches fail, and `index` returns the same 503
service-unavailable response (`none`) in both cases. -/
theorem C2_counterexample :
    get_live_bus_data (fun _ => []) (some [1]) (some [1]) =
      get_live_bus_data (fun _ => []) none none ∧
    get_live_bus_data (fun _ => []) (some [1]) (some [1]) = some [] ∧
    index_result [] ⟨"Gold Coast", "700", [], "All"⟩ = none := by
  decide

/-- C2 (amended): an empty-but-successfully-decoded vehicle feed (non-empty
bodies, vehicle bytes decoding to zero vehicle records) short-circuits to the
same empty frame a fetch failure produces; the caller `index` cannot
distinguish the two — it returns the same 503 service-unavailable response
(`none`) for both, so "zero buses currently" is observably identical to
"service unavailable". -/
theorem C2_empty_feed_indistinguishable (decodeFeed : List Nat → List Entity)
    (vb tb : List Nat) (sel : Selection) (hvb : vb ≠ []) (htb : tb ≠ [])
    (hempty : parse_vehicle_positions (decodeFeed vb) = []) :
    get_live_bus_data decodeFeed (some vb) (some tb) = some [] ∧
    get_live_bus_data decodeFeed (some vb) (some tb) =
      get_live_bus_data decodeFeed none none ∧
    index_result [] sel = none := by
  have hv : truthy (some vb) = true := by
    cases vb with
    | nil => exact absurd rfl hvb
    | cons a l => rfl
  have ht : truthy (some tb) = true := by
    cases tb with
    | nil => exact absurd rfl htb
    | cons a l => rfl
  have h1 : get_live_bus_data decodeFeed (some vb) (some tb) = some [] := by
    unfold get_live_bus_data
    rw [hv, ht]
    simp [hempty]
  have h2 : get_live_bus_data decodeFeed none none = some [] := rfl
  exact ⟨h1, by rw [h1, h2], rfl⟩

/-- Witness for `C2_empty_feed_indistinguishable` at the concrete decoder
that decodes any bytes to zero entities and non-empty bodies `[1]`. -/
theorem C2_empty_feed_indistinguishable_witness :
    get_live_bus_data (fun _ => []) (some [1]) (some [1]) = some [] ∧
    get_live_bus_data (fun _ => []) (some [1]) (some [1]) =
      get_live_bus_data (fun _ => []) none none ∧
    index_result [] ⟨"All", "All", [], "All"⟩ = none :=
  C2_empty_feed_indistinguishable (fun _ => []) [1] [1] ⟨"All", "All", [], "All"⟩
    (by decide) (by decide) (by decide)

/-- C5: cascade resolution proceeds in the strict order
region → route → status → vehicle: each stage's option list is computed from
the working subset surviving exactly the prior stages (the explicit formulas
below), so it depends only on the prior-stage selections; region options are
always computed from the entire enriched set and are never narrowed by any
selection. -/
theorem C5_cascade_order (es : List EnrichedRow) (s s' : Selection) :
    (resolve es s).regionOptions = (resolve es s').regionOptions ∧
    (resolve es s).regionOptions = "All" :: uniqueSorted (es.map (fun r => r.region)) ∧
    (s.region = s'.region → (resolve es s).routeOptions = (resolve es s').routeOptions) ∧
    (s.region = s'.region → s.route = s'.route →
      (resolve es s).statusOptions = (resolve es s').statusOptions) ∧
    (s.region = s'.region → s.route = s'.route → s.status = s'.status →
      (resolve es s).vehicleOptions = (resolve es s').vehicleOptions) ∧
    (resolve es s).routeOptions =
      "All" :: uniqueSorted ((narrow_by_region es s.region).map (fun r => r.routeName)) ∧
    (resolve es s).statusOptions =
      status_options_of (narrow_by_route (narrow_by_region es s.region) s.route) ∧
    (resolve es s).vehicleOptions =
      "All" :: uniqueSorted ((narrow_by_status (narrow_by_route (narrow_by_region es s.region)
        s.route) s.status).map (fun r => r.vehicleId)) := by
  refine ⟨rfl, rfl, ?_, ?_, ?_, rfl, rfl, rfl⟩
  · intro h1
    show "All" :: uniqueSorted ((narrow_by_region es s.region).map (fun r => r.routeName)) =
      "All" :: uniqueSorted ((narrow_by_region es s'.region).map (fun r => r.routeName))
    rw [h1]
  · intro h1 h2
    show status_options_of (narrow_by_route (narrow_by_region es s.region) s.route) =
      status_options_of (narrow_by_route (narrow_by_region es s'.region) s'.route)
    rw [h1, h2]
  · intro h1 h2 h3
    show "All" :: uniqueSorted ((narrow_by_status (narrow_by_route (narrow_by_region es s.region)
        s.route) s.status).map (fun r => r.vehicleId)) =
      "All" :: uniqueSorted ((narrow_by_status (narrow_by_route (narrow_by_region es s'.region)
        s'.route) s'.status).map (fun r => r.vehicleId))
    rw [h1, h2, h3]

/-- Witness for `C5_cascade_order` at a concrete enriched set and two
selections that agree on region, route and status (differing in vehicle);
every hypothesis is discharged by `rfl`. -/
theorem C5_cascade_order_witness :
    (resolve [enriched_of ⟨"A", "700-city", "V1", -27, 153, 1, none⟩ 0 "On Time"]
        ⟨"All", "All", [], "All"⟩).vehicleOptions =
      (resolve [enriched_of ⟨"A", "700-city", "V1", -27, 153, 1, none⟩ 0 "On Time"]
        ⟨"All", "All", [], "V1"⟩).vehicleOptions :=
  (C5_cascade_order [enriched_of ⟨"A", "700-city", "V1", -27, 153, 1, none⟩ 0 "On Time"]
    ⟨"All", "All", [], "All"⟩ ⟨"All", "All", [], "V1"⟩).2.2.2.2.1 rfl rfl rfl

/-- C6: for every enriched set and selection, every option list is
deduplicated and lexicographically sorted, with the sentinel "All" prepended
to the region, route and vehicle option lists; the status option list is
exactly the sorted distinct statuses of the route-stage subset with no "All"
sentinel prepended. -/
theorem C6_options_sorted_dedup (es : List EnrichedRow) (sel : Selection) :
    ((resolve es sel).regionOptions.head? = some "All" ∧
      List.Sorted (fun a b : String => a ≤ b) (resolve es sel).regionOptions.tail ∧
      (resolve es sel).regionOptions.tail.Nodup) ∧
    ((resolve es sel).routeOptions.head? = some "All" ∧
      List.Sorted (fun a b : String => a ≤ b) (resolve es sel).routeOptions.tail ∧
      (resolve es sel).routeOptions.tail.Nodup) ∧
    ((resolve es sel).vehicleOptions.head? = some "All" ∧
      List.Sorted (fun a b : String => a ≤ b) (resolve es sel).vehicleOptions.tail ∧
      (resolve es sel).vehicleOptions.tail.Nodup) ∧
    (List.Sorted (fun a b : String => a ≤ b) (resolve es sel).statusOptions ∧
      (resolve es sel).statusOptions.Nodup ∧
      (resolve es sel).statusOptions =
        uniqueSorted ((narrow_by_route (narrow_by_region es sel.region) sel.route).map
          (fun r => r.status))) :=
  ⟨⟨rfl, sorted_uniqueSorted _, nodup_uniqueSorted _⟩,
    ⟨rfl, sorted_uniqueSorted _, nodup_uniqueSorted _⟩,
    ⟨rfl, sorted_uniqueSorted _, nodup_uniqueSorted _⟩,
    sorted_uniqueSorted _, nodup_uniqueSorted _, rfl⟩

/-- C7: whenever the caller supplies an empty status selection, the effective
status selection equals exactly the full status option list computed from the
current route-stage working subset (so it is a function of the current
region/route selection, recomputed at each resolution), and the status filter
is applied with this defaulted set. -/
theorem C7_status_default (es : List EnrichedRow) (sel : Selection) (h : sel.status = []) :
    (resolve es sel).effectiveStatus = (resolve es sel).statusOptions ∧
    (resolve es sel).statusOptions =
      status_options_of (narrow_by_route (narrow_by_region es sel.region) sel.route) ∧
    narrow_by_status (narrow_by_route (narrow_by_region es sel.region) sel.route) sel.status =
      (narrow_by_route (narrow_by_region es sel.region) sel.route).filter
        (fun r => (resolve es sel).statusOptions.contains r.status) := by
  have he : effective_status_of (narrow_by_route (narrow_by_region es sel.region) sel.route)
      sel.status =
      status_options_of (narrow_by_route (narrow_by_region es sel.region) sel.route) := by
    rw [h]
    rfl
  refine ⟨he, rfl, ?_⟩
  show (narrow_by_route (narrow_by_region es sel.region) sel.route).filter
      (fun r => (effective_status_of (narrow_by_route (narrow_by_region es sel.region) sel.route)
        sel.status).contains r.status) = _
  rw [he]
  rfl

/-- Witness for `C7_status_default` at a concrete enriched set and a
selection with an empty status list. -/
theorem C7_status_default_witness :
    (resolve [enriched_of ⟨"A", "700-city", "V1", -27, 153, 1, none⟩ 400 "Delayed"]
        ⟨"All", "All", [], "All"⟩).effectiveStatus =
      (resolve [enriched_of ⟨"A", "700-city", "V1", -27, 153, 1, none⟩ 400 "Delayed"]
        ⟨"All", "All", [], "All"⟩).statusOptions ∧
    (resolve [enriched_of ⟨"A", "700-city", "V1", -27, 153, 1, none⟩ 400 "Delayed"]
        ⟨"All", "All", [], "All"⟩).statusOptions =
      status_options_of (narrow_by_route (narrow_by_region
        [enriched_of ⟨"A", "700-city", "V1", -27, 153, 1, none⟩ 400 "Delayed"]
        (⟨"All", "All", [], "All"⟩ : Selection).region)
        (⟨"All", "All", [], "All"⟩ : Selection).route) ∧
    narrow_by_status (narrow_by_route (narrow_by_region
        [enriched_of ⟨"A", "700-city", "V1", -27, 153, 1, none⟩ 400 "Delayed"]
        (⟨"All", "All", [], "All"⟩ : Selection).region)
        (⟨"All", "All", [], "All"⟩ : Selection).route)
        (⟨"All", "All", [], "All"⟩ : Selection).status =
      (narrow_by_route (narrow_by_region
        [enriched_of ⟨"A", "700-city", "V1", -27, 153, 1, none⟩ 400 "Delayed"]
        (⟨"All", "All", [], "All"⟩ : Selection).region)
        (⟨"All", "All", [], "All"⟩ : Selection).route).filter
        (fun r => ((resolve [enriched_of ⟨"A", "700-city", "V1", -27, 153, 1, none⟩ 400 "Delayed"]
          ⟨"All", "All", [], "All"⟩).statusOptions).contains r.status) :=
  C7_status_default [enriched_of ⟨"A", "700-city", "V1", -27, 153, 1, none⟩ 400 "Delayed"]
    ⟨"All", "All", [], "All"⟩ rfl

/-- C8: cascade monotonicity.  For any enriched set and base selection,
narrowing one prior stage to a concrete value (versus "All", or, for the
status stage, versus the empty selection whose default means "everything
available") never produces a larger option list at any later stage. -/
theorem C8_cascade_monotone (es : List EnrichedRow) (sel : Selection)
    (v : String) (ss : List String) :
    (resolve es { sel with region := v }).routeOptions.length ≤
      (resolve es { sel with region := "All" }).routeOptions.length ∧
    (resolve es { sel with region := v }).statusOptions.length ≤
      (resolve es { sel with region := "All" }).statusOptions.length ∧
    (resolve es { sel with region := v }).vehicleOptions.length ≤
      (resolve es { sel with region := "All" }).vehicleOptions.length ∧
    (resolve es { sel with route := v }).statusOptions.length ≤
      (resolve es { sel with route := "All" }).statusOptions.length ∧
    (resolve es { sel with route := v }).vehicleOptions.length ≤
      (resolve es { sel with route := "All" }).vehicleOptions.length ∧
    (resolve es { sel with status := ss }).vehicleOptions.length ≤
      (resolve es { sel with status := [] }).vehicleOptions.length := by
  have hd1 : narrow_by_region es v ⊆ narrow_by_region es "All" := by
    rw [narrow_by_region_all]
    exact narrow_by_region_subset es v
  have hd2 : narrow_by_route (narrow_by_region es v) sel.route ⊆
      narrow_by_route (narrow_by_region es "All") sel.route :=
    narrow_by_route_mono sel.route hd1
  have hd3 : narrow_by_status (narrow_by_route (narrow_by_region es v) sel.route) sel.status ⊆
      narrow_by_status (narrow_by_route (narrow_by_region es "All") sel.route) sel.status :=
    narrow_by_status_mono sel.status hd2
  have he2 : narrow_by_route (narrow_by_region es sel.region) v ⊆
      narrow_by_route (narrow_by_region es sel.region) "All" := by
    rw [narrow_by_route_all]
    exact narrow_by_route_subset _ v
  have he3 : narrow_by_status (narrow_by_route (narrow_by_region es sel.region) v) sel.status ⊆
      narrow_by_status (narrow_by_route (narrow_by_region es sel.region) "All") sel.status :=
    narrow_by_status_mono sel.status he2
  have hf3 : narrow_by_status (narrow_by_route (narrow_by_region es sel.region) sel.route) ss ⊆
      narrow_by_status (narrow_by_route (narrow_by_region es sel.region) sel.route) [] := by
    rw [narrow_by_status_nil]
    exact narrow_by_status_subset _ ss
  refine ⟨?_, ?_, ?_, ?_, ?_, ?_⟩
  · show ("All" :: uniqueSorted ((narrow_by_region es v).map (fun r => r.routeName))).length ≤
      ("All" :: uniqueSorted ((narrow_by_region es "All").map (fun r => r.routeName))).length
    simp only [List.length_cons]
    exact Nat.succ_le_succ (uniqueSorted_length_mono (List.map_subset _ hd1))
  · show (status_options_of (narrow_by_route (narrow_by_region es v) sel.route)).length ≤
      (status_options_of (narrow_by_route (narrow_by_region es "All") sel.route)).length
    exact uniqueSorted_length_mono (List.map_subset _ hd2)
  · show ("All" :: uniqueSorted ((narrow_by_status (narrow_by_route (narrow_by_region es v)
        sel.route) sel.status).map (fun r => r.vehicleId))).length ≤
      ("All" :: uniqueSorted ((narrow_by_status (narrow_by_route (narrow_by_region es "All")
        sel.route) sel.status).map (fun r => r.vehicleId))).length
    simp only [List.length_cons]
    exact Nat.succ_le_succ (uniqueSorted_length_mono (List.map_subset _ hd3))
  · show (status_options_of (narrow_by_route (narrow_by_region es sel.region) v)).length ≤
      (status_options_of (narrow_by_route (narrow_by_region es sel.region) "All")).length
    exact uniqueSorted_length_mono (List.map_subset _ he2)
  · show ("All" :: uniqueSorted ((narrow_by_status (narrow_by_route
        (narrow_by_region es sel.region) v) sel.status).map (fun r => r.vehicleId))).length ≤
      ("All" :: uniqueSorted ((narrow_by_status (narrow_by_route
        (narrow_by_region es sel.region) "All") sel.status).map (fun r => r.vehicleId))).length
    simp only [List.length_cons]
    exact Nat.succ_le_succ (uniqueSorted_length_mono (List.map_subset _ he3))
  · show ("All" :: uniqueSorted ((narrow_by_status (narrow_by_route
        (narrow_by_region es sel.region) sel.route) ss).map (fun r => r.vehicleId))).length ≤
      ("All" :: uniqueSorted ((narrow_by_status (narrow_by_route
        (narrow_by_region es sel.region) sel.route) []).map (fun r => r.vehicleId))).length
    simp only [List.length_cons]
    exact Nat.succ_le_succ (uniqueSorted_length_mono (List.map_subset _ hf3))
